import Mathlib

/-!
Shallow embedding of the provider abstraction and resilience layer of
`prompt_diff_report` (files `providers/base.py`, `providers/retry_utils.py`,
`providers/exceptions.py`, `providers/data_class.py`), together with proofs
of the specified properties.

Python strings are modelled as `List Char`; the process-wide registry dict
is modelled as an association list in insertion order (Python dicts preserve
insertion order, and the registration code keeps keys unique); raising an
exception is modelled with `Except` / an explicit error component.
-/

/-- Python strings, modelled as lists of characters. -/
abbrev Str := List Char

/-- Coerce a Lean string literal to the `Str` model. -/
def str (s : String) : Str := s.data

/-- The exception hierarchy of `providers/exceptions.py`: `ProviderError`
is the base class, `ProviderRateLimitError` and `ProviderAuthError` are its
two subclasses.  Each carries its message. -/
inductive ProviderErr : Type
  | providerError (msg : Str)
  | rateLimit (msg : Str)
  | auth (msg : Str)
deriving DecidableEq, Repr

/-- `isinstance(e, ProviderRateLimitError)`: true exactly for the
`ProviderRateLimitError` class (it has no subclasses in the repository). -/
def isRateLimitError : ProviderErr → Bool
  | ProviderErr.rateLimit _ => true
  | _ => false

/-- A concrete client class (a `type[AbstractLLMClient]` value in
`base.py`): it has an optional `provider` class attribute
(`getattr(cls, 'provider', None)`) and an identity distinguishing distinct
type objects. -/
structure ClientType where
  provider : Option Str
  typeId : Nat
deriving DecidableEq, Repr, Inhabited

/-- The module-level `_REGISTRY` dict of `base.py`, as an association list
in insertion order. -/
abbrev Registry := List (Str × ClientType)

/-- Dict lookup `_REGISTRY[key]` / membership `key in _REGISTRY`. -/
def regLookup : Registry → Str → Option ClientType
  | [], _ => none
  | (k, c) :: rest, key => if k = key then some c else regLookup rest key

/-- `list(_REGISTRY)`: the registered provider keys, in insertion order. -/
def regKeys (reg : Registry) : List Str := reg.map Prod.fst

/-- The two `ValueError`s `register_provider` can raise. -/
inductive RegError : Type
  | missingProviderAttr
  | alreadyRegistered (key : Str) (existing : ClientType)
deriving DecidableEq, Repr

/-- `register_provider` from `base.py`: reads `getattr(cls, 'provider',
None)`, raises if the key is falsy (missing or empty) or already present in
`_REGISTRY`, otherwise appends the binding.  The result pairs the raised
error (if any) with the registry state afterwards; both raises happen
before the dict assignment, so on error the registry is returned
unchanged. -/
def register_provider (reg : Registry) (cls : ClientType) :
    Option RegError × Registry :=
  match cls.provider with
  | none => (some RegError.missingProviderAttr, reg)
  | some key =>
    if key.isEmpty then (some RegError.missingProviderAttr, reg)
    else
      match regLookup reg key with
      | some existing => (some (RegError.alreadyRegistered key existing), reg)
      | none => (none, reg ++ [(key, cls)])

/-- A resolved client instance: `cls(model=model_name)` stores the model
name in `self.model` (see `AbstractLLMClient.__init__`). -/
structure ClientInstance where
  ctype : ClientType
  model : Str
deriving DecidableEq, Repr

/-- The two `ValueError`s `resolve_client` can raise: the format error
carries its message verbatim; the unknown-provider error carries the
offending key and `list(_REGISTRY)` as interpolated into its message. -/
inductive ResolveError : Type
  | formatError (msg : Str)
  | unknownProvider (key : Str) (registered : List Str)
deriving DecidableEq, Repr

/-- The message of the format error raised by `resolve_client`. -/
def formatErrMsg : Str :=
  str "model_uri must be in \x27provider:model\x27 format (e.g. \x27openai:gpt-4o\x27)"

/-- `model_uri.split(':', 1)` for a string containing the separator: the
part before the first occurrence and everything after it. -/
def splitOnce (c : Char) : Str → Str × Str
  | [] => ([], [])
  | x :: xs =>
    if x = c then ([], xs)
    else
      let pr := splitOnce c xs
      (x :: pr.1, pr.2)

/-- `resolve_client` from `base.py`: format check (`':' not in model_uri`),
`split(':', 1)`, registry lookup (raising the unknown-provider error listing
`list(_REGISTRY)` on `KeyError`), then instantiation with the extracted
model name. -/
def resolve_client (reg : Registry) (model_uri : Str) :
    Except ResolveError ClientInstance :=
  if ':' ∈ model_uri then
    let pr := splitOnce ':' model_uri
    match regLookup reg pr.1 with
    | some cls => Except.ok { ctype := cls, model := pr.2 }
    | none => Except.error (ResolveError.unknownProvider pr.1 (regKeys reg))
  else
    Except.error (ResolveError.formatError formatErrMsg)

/-- Registry states reachable from the empty startup state by any sequence
of `register_provider` calls (successful or failed). -/
inductive ReachableRegistry : Registry → Prop
  | init : ReachableRegistry []
  | step (r : Registry) (cls : ClientType) :
      ReachableRegistry r → ReachableRegistry (register_provider r cls).2

/-- One invocation of a wrapped operation either returns a value or raises
a provider exception. -/
inductive Outcome (α : Type) : Type
  | ok (v : α)
  | exn (e : ProviderErr)
deriving DecidableEq, Repr

/-- What a tenacity-wrapped call delivers to its caller: a returned value,
a re-raised underlying exception, or tenacity's own `RetryError` (raised
with `reraise=True` only when attempts are exhausted by a retryable
*result*, which wraps that last result). -/
inductive RetryResult (α : Type) : Type
  | value (v : α)
  | raised (e : ProviderErr)
  | retryError (last : α)
deriving DecidableEq, Repr

/-- Delivery of an outcome whose retry condition is false
(tenacity `fut.result()`): a value is returned, an exception re-raised. -/
def settleOutcome : Outcome α → RetryResult α
  | Outcome.ok v => RetryResult.value v
  | Outcome.exn e => RetryResult.raised e

/-- Delivery at attempt exhaustion with `reraise=True`
(tenacity `RetryError.reraise`): a final exception is re-raised unmodified,
a final retryable result becomes `RetryError`. -/
def exhaustOutcome : Outcome α → RetryResult α
  | Outcome.ok v => RetryResult.retryError v
  | Outcome.exn e => RetryResult.raised e

/-- The tenacity retry loop with `stop_after_attempt`, `wait_fixed` and
`reraise=True`: invoke the operation at the current attempt number; if the
retry condition rejects the outcome, deliver it; otherwise, when fuel
(remaining permitted attempts) is exhausted, deliver via
`exhaustOutcome`, else sleep `wait` seconds and go again.  The operation is
modelled as a function of the 1-based attempt number; the result carries
the final attempt number (the number of invocations) and the total seconds
slept. -/
def retryLoop (retryOn : Outcome α → Bool) (wait : Nat) (op : Nat → Outcome α) :
    Nat → Nat → Nat → RetryResult α × Nat × Nat
  | fuel, attempt, slept =>
    let o := op attempt
    if retryOn o then
      match fuel with
      | 0 => (exhaustOutcome o, attempt, slept)
      | f + 1 => retryLoop retryOn wait op f (attempt + 1) (slept + wait)
    else
      (settleOutcome o, attempt, slept)

/-- `tenacity.retry(retry=…, stop=stop_after_attempt(maxAttempts),
wait=wait_fixed(wait), reraise=True)` applied to an operation: attempt
numbers start at 1, and `stop_after_attempt` permits `maxAttempts - 1`
retries after the first invocation (at least one invocation always
happens). -/
def tenacityRetry (retryOn : Outcome α → Bool) (maxAttempts wait : Nat)
    (op : Nat → Outcome α) : RetryResult α × Nat × Nat :=
  retryLoop retryOn wait op (maxAttempts - 1) 1 0

/-- `retry_if_exception_type(ProviderRateLimitError)`: retry exactly when
the outcome is a raised `ProviderRateLimitError`; returned values are never
retried by this condition. -/
def retryIfRateLimitExc : Outcome α → Bool
  | Outcome.ok _ => false
  | Outcome.exn e => isRateLimitError e

/-- `rate_limit_retry(max_attempts=…, wait_seconds=…)` from
`retry_utils.py`, applied to an operation. -/
def rate_limit_retry (maxAttempts wait : Nat) (op : Nat → Outcome α) :
    RetryResult α × Nat × Nat :=
  tenacityRetry retryIfRateLimitExc maxAttempts wait op

/-- `retry_if_result(predicate)`: retry exactly when the operation returned
normally and the predicate holds of the returned value; exceptions are
never retried by this condition. -/
def retryIfResult (pred : α → Bool) : Outcome α → Bool
  | Outcome.ok v => pred v
  | Outcome.exn _ => false

/-- `llm_retry_decorator(predicate, max_attempts=…, wait_seconds=…)` from
`retry_utils.py`, applied to an operation. -/
def llm_retry_decorator (pred : α → Bool) (maxAttempts wait : Nat)
    (op : Nat → Outcome α) : RetryResult α × Nat × Nat :=
  tenacityRetry (retryIfResult pred) maxAttempts wait op

/-- Message roles (`Literal['system', 'user', 'assistant']` in
`data_class.py`). -/
inductive Role : Type
  | system
  | user
  | assistant
deriving DecidableEq, Repr

/-- The `Message` model of `data_class.py`. -/
structure Message where
  role : Role
  content : Str
deriving DecidableEq, Repr

/-- The `Messages` model of `data_class.py`. -/
structure Messages where
  messages : List Message
deriving DecidableEq, Repr

/-- A validated `GenerateParameters` record (`data_class.py`): the three
recognized optional fields, plus the open bag of extra provider-specific
fields admitted by `model_config = \x7b'extra': 'allow'\x7d`.  Python
floats are modelled as rationals, `max_tokens` as an integer. -/
structure GenerateParameters where
  temperature : Option ℚ
  top_p : Option ℚ
  max_tokens : Option ℤ
  extra : List (Str × Str)
deriving DecidableEq, Repr

/-- The pydantic field constraints of `GenerateParameters`:
`temperature` with `ge=0.0, le=2.0`, `top_p` with `ge=0.0, le=1.0`,
`max_tokens` with `gt=256, le=16384`; a `None` value passes each
`Optional` field, and extra fields are not validated at all. -/
def validGenerateParameters (t p : Option ℚ) (m : Option ℤ) : Bool :=
  (match t with
   | none => true
   | some x => decide (0 ≤ x ∧ x ≤ 2)) &&
  (match p with
   | none => true
   | some x => decide (0 ≤ x ∧ x ≤ 1)) &&
  (match m with
   | none => true
   | some x => decide (256 < x ∧ x ≤ 16384))

/-- Constructing a `GenerateParameters` record: pydantic validation either
yields the record (with every supplied field, recognized or extra, stored
as given) or raises a `ValidationError` (modelled as `none`). -/
def mkGenerateParameters (t p : Option ℚ) (m : Option ℤ)
    (extra : List (Str × Str)) : Option GenerateParameters :=
  if validGenerateParameters t p m then
    some { temperature := t, top_p := p, max_tokens := m, extra := extra }
  else
    none

/-- The behaviour of a concrete client (an `AbstractLLMClient` subclass
instance): its abstract `generate` method, which may answer differently on
successive invocations with the same arguments; the attempt number indexes
the invocation. -/
structure ClientBehavior where
  generate : Messages → GenerateParameters → Nat → Outcome Str

/-- `AbstractLLMClient.call_with_retry` from `base.py`: `generate`
decorated with `@rate_limit_retry(max_attempts=3, wait_seconds=1)`, each
attempt delegating to `generate` with the same `messages` and `params`. -/
def call_with_retry (c : ClientBehavior) (messages : Messages)
    (params : GenerateParameters) : RetryResult Str × Nat × Nat :=
  rate_limit_retry 3 1 (fun attempt => c.generate messages params attempt)

/-! ### Helper lemmas -/

/-- `splitOnce` on a string of the shape `p ++ c :: m` where the separator
does not occur in `p` splits at that first separator. -/
theorem splitOnce_first (c : Char) (p m : Str) (hp : c ∉ p) :
    splitOnce c (p ++ c :: m) = (p, m) := by
  induction p with
  | nil => simp [splitOnce]
  | cons x xs ih =>
    have hx : x ≠ c := by
      intro h
      exact hp (h ▸ List.mem_cons_self x xs)
    have hxs : c ∉ xs := fun h => hp (List.mem_cons_of_mem x h)
    simp [splitOnce, hx, ih hxs]

/-- A key absent from the lookup is absent from the key list. -/
theorem regLookup_none_iff (reg : Registry) (key : Str) :
    regLookup reg key = none ↔ key ∉ regKeys reg := by
  induction reg with
  | nil => simp [regLookup, regKeys]
  | cons kv rest ih =>
    obtain ⟨k, c⟩ := kv
    by_cases hk : k = key
    · subst hk
      simp [regLookup, regKeys]
    · simp [regLookup, regKeys, hk, ih, Ne.symm hk]

/-- Every key stored in a reachable registry is nonempty:
`register_provider` rejects falsy keys before ever writing to the dict. -/
theorem reachable_keys_nonempty {reg : Registry}
    (h : ReachableRegistry reg) : ∀ kv ∈ reg, kv.1 ≠ ([] : Str) := by
  induction h with
  | init => simp
  | step r cls _ ih =>
    intro kv hkv
    cases hcp : cls.provider with
    | none =>
      simp only [register_provider, hcp] at hkv
      exact ih kv hkv
    | some key =>
      simp only [register_provider, hcp] at hkv
      by_cases hke : key.isEmpty
      · simp only [hke, if_true] at hkv
        exact ih kv hkv
      · simp only [hke, if_false, Bool.false_eq_true] at hkv
        cases hlook : regLookup r key with
        | some existing =>
          simp only [hlook] at hkv
          exact ih kv hkv
        | none =>
          simp only [hlook, List.mem_append, List.mem_singleton] at hkv
          rcases hkv with hkv | hkv
          · exact ih kv hkv
          · subst hkv
            intro hnil
            simp only [] at hnil
            simp [hnil] at hke

/-- The empty string is never a key of a reachable registry. -/
theorem reachable_lookup_empty {reg : Registry}
    (h : ReachableRegistry reg) : regLookup reg ([] : Str) = none := by
  rw [regLookup_none_iff]
  intro hmem
  obtain ⟨kv, hkv, hfst⟩ := List.mem_map.mp hmem
  exact reachable_keys_nonempty h kv hkv hfst

/-! ### Concrete fixtures used by witnesses -/

/-- A demo client class registered under the key "openai". -/
def openaiType : ClientType := { provider := some (str "openai"), typeId := 0 }

/-- A demo client class registered under the key "anthropic". -/
def anthropicType : ClientType :=
  { provider := some (str "anthropic"), typeId := 1 }

/-- A demo registry holding the two demo client classes. -/
def demoReg : Registry :=
  [(str "openai", openaiType), (str "anthropic", anthropicType)]

/-! ### Claims about the resolver and the registry -/

/-- Claim C1: for every model URI `p ++ ":" ++ m` whose provider segment
`p` (the part before the first colon, hence colon-free) is registered,
`resolve_client` returns an instance of the registered client type whose
stored model attribute is exactly `m` — everything after the first colon,
even when `m` itself contains further colons. -/
theorem resolve_client_registered (reg : Registry) (p m : Str)
    (cls : ClientType) (hp : ':' ∉ p) (hreg : regLookup reg p = some cls) :
    resolve_client reg (p ++ ':' :: m) =
      Except.ok { ctype := cls, model := m } := by
  have hmem : ':' ∈ p ++ ':' :: m :=
    List.mem_append.mpr (Or.inr (List.mem_cons_self ':' m))
  simp [resolve_client, hmem, splitOnce_first ':' p m hp, hreg]

/-- Witness for C1: resolving `"openai:org/gpt-4o:v2"` against the demo
registry yields an `openaiType` instance with model `"org/gpt-4o:v2"`. -/
theorem resolve_client_registered_witness :
    resolve_client demoReg (str "openai" ++ ':' :: str "org/gpt-4o:v2") =
      Except.ok { ctype := openaiType, model := str "org/gpt-4o:v2" } :=
  resolve_client_registered demoReg (str "openai") (str "org/gpt-4o:v2")
    openaiType (by decide) (by decide)

/-- Claim C5: for every model URI without a colon, `resolve_client` raises
the format error whose message names the expected `provider:model` shape.
The result is the same constant for every registry state, so the registry
is neither read nor modified, and no client is instantiated. -/
theorem resolve_client_no_colon (reg : Registry) (uri : Str)
    (h : ':' ∉ uri) :
    resolve_client reg uri =
      Except.error (ResolveError.formatError formatErrMsg) := by
  simp [resolve_client, h]

/-- Witness for C5: resolving `"no-colon-here"` in the empty registry. -/
theorem resolve_client_no_colon_witness :
    resolve_client [] (str "no-colon-here") =
      Except.error (ResolveError.formatError formatErrMsg) :=
  resolve_client_no_colon [] (str "no-colon-here") (by decide)

/-- Claim C6: for every model URI `p ++ ":" ++ m` whose provider segment
`p` is not a registered key, `resolve_client` raises the unknown-provider
error carrying the full list of currently registered keys
(`list(_REGISTRY)`), and no client is instantiated. -/
theorem resolve_client_unknown_provider (reg : Registry) (p m : Str)
    (hp : ':' ∉ p) (h : regLookup reg p = none) :
    resolve_client reg (p ++ ':' :: m) =
      Except.error (ResolveError.unknownProvider p (regKeys reg)) := by
  have hmem : ':' ∈ p ++ ':' :: m :=
    List.mem_append.mpr (Or.inr (List.mem_cons_self ':' m))
  simp [resolve_client, hmem, splitOnce_first ':' p m hp, h]

/-- Witness for C6: resolving `"unknownprov:x"` against the demo registry
fails with an error listing both registered keys in insertion order. -/
theorem resolve_client_unknown_provider_witness :
    resolve_client demoReg (str "unknownprov" ++ ':' :: str "x") =
      Except.error (ResolveError.unknownProvider (str "unknownprov")
        [str "openai", str "anthropic"]) := by
  have h := resolve_client_unknown_provider demoReg (str "unknownprov")
    (str "x") (by decide) (by decide)
  simpa [demoReg, regKeys] using h

/-- Claim C10: a model URI starting with a colon has an empty provider
segment; it passes the format check (a colon is present) and, because
`register_provider` rejects falsy keys, the empty string is never a key of
any reachable registry, so `resolve_client` raises the unknown-provider
error (for the empty key, listing the registered keys) rather than the
format error. -/
theorem resolve_client_leading_colon (reg : Registry) (rest : Str)
    (h : ReachableRegistry reg) :
    resolve_client reg (':' :: rest) =
      Except.error (ResolveError.unknownProvider [] (regKeys reg)) := by
  have hlook := reachable_lookup_empty h
  simp [resolve_client, splitOnce, hlook]

/-- Witness for C10: resolving `":gpt-4"` against the reachable registry
obtained by registering `openaiType` into the empty startup registry. -/
theorem resolve_client_leading_colon_witness :
    resolve_client (register_provider [] openaiType).2 (':' :: str "gpt-4") =
      Except.error (ResolveError.unknownProvider []
        (regKeys (register_provider [] openaiType).2)) :=
  resolve_client_leading_colon (register_provider [] openaiType).2
    (str "gpt-4")
    (ReachableRegistry.step [] openaiType ReachableRegistry.init)

/-- Claim C4: `register_provider` preserves the one-type-per-key
invariant.  (a) A falsy (missing or empty) provider key makes it raise and
leave the registry unchanged; (b) a key already occupied — by any type,
including the very same type object — makes it raise and leave the
registry unchanged, so the first-registered type is retained; (c) any call,
successful or failed, keeps the key list duplicate-free. -/
theorem register_provider_invariant (reg : Registry) (cls : ClientType) :
    (cls.provider = none ∨ cls.provider = some ([] : Str) →
      (register_provider reg cls).1.isSome = true ∧
        (register_provider reg cls).2 = reg) ∧
    (∀ key, cls.provider = some key → (regLookup reg key).isSome = true →
      (register_provider reg cls).1.isSome = true ∧
        (register_provider reg cls).2 = reg) ∧
    ((regKeys reg).Nodup → (regKeys (register_provider reg cls).2).Nodup) := by
  refine ⟨?_, ?_, ?_⟩
  · intro hfalsy
    rcases hfalsy with hnone | hempty
    · simp [register_provider, hnone]
    · simp [register_provider, hempty]
  · intro key hkey hocc
    rw [Option.isSome_iff_exists] at hocc
    obtain ⟨t, ht⟩ := hocc
    by_cases hke : key.isEmpty
    · simp [register_provider, hkey, hke]
    · simp [register_provider, hkey, hke, ht]
  · intro hnodup
    cases hcp : cls.provider with
    | none => simpa [register_provider, hcp] using hnodup
    | some key =>
      by_cases hke : key.isEmpty
      · simpa [register_provider, hcp, hke] using hnodup
      · cases hlook : regLookup reg key with
        | some t => simpa [register_provider, hcp, hke, hlook] using hnodup
        | none =>
          have hnot : key ∉ regKeys reg := (regLookup_none_iff reg key).mp hlook
          have hkeys : regKeys ((register_provider reg cls).2) =
              regKeys reg ++ [key] := by
            simp [register_provider, hcp, hke, hlook, regKeys]
          rw [hkeys, List.nodup_append]
          refine ⟨hnodup, List.nodup_singleton key, ?_⟩
          intro a ha hb
          rw [List.mem_singleton] at hb
          subst hb
          exact hnot ha

/-- Witness for C4: re-registering `openaiType` (the exact same type
object) into a registry already holding it fails and leaves the registry
unchanged; and registering it into the empty registry keeps the key list
duplicate-free. -/
theorem register_provider_invariant_witness :
    ((register_provider [(str "openai", openaiType)] openaiType).1.isSome =
        true ∧
      (register_provider [(str "openai", openaiType)] openaiType).2 =
        [(str "openai", openaiType)]) ∧
    (regKeys (register_provider [] openaiType).2).Nodup :=
  ⟨(register_provider_invariant [(str "openai", openaiType)]
      openaiType).2.1 (str "openai") rfl (by decide),
    (register_provider_invariant [] openaiType).2.2 (by decide)⟩

/-! ### Claims about the retry policy -/

/-- When the retry condition rejects the outcome of the current attempt,
the loop delivers it at once, whatever fuel remains. -/
theorem retryLoop_no_retry {α : Type} (retryOn : Outcome α → Bool)
    (wait : Nat) (op : Nat → Outcome α) (fuel attempt slept : Nat)
    (h : retryOn (op attempt) = false) :
    retryLoop retryOn wait op fuel attempt slept =
      (settleOutcome (op attempt), attempt, slept) := by
  cases fuel <;> simp [retryLoop, h]

/-- Claim C2: an operation raising `ProviderRateLimitError` on attempts 1
and 2 and succeeding on attempt 3, wrapped by `rate_limit_retry` with
`max_attempts=3`, returns the success value after exactly 3 invocations
(sleeping the fixed wait twice); the same operation wrapped with
`max_attempts=2` re-raises the attempt-2 rate-limit error after exactly 2
invocations. -/
theorem rate_limit_retry_succeeds_third {α : Type} (op : Nat → Outcome α)
    (e1 e2 : ProviderErr) (v : α) (w : Nat)
    (h1 : op 1 = Outcome.exn e1) (hr1 : isRateLimitError e1 = true)
    (h2 : op 2 = Outcome.exn e2) (hr2 : isRateLimitError e2 = true)
    (h3 : op 3 = Outcome.ok v) :
    rate_limit_retry 3 w op = (RetryResult.value v, 3, w + w) ∧
    rate_limit_retry 2 w op = (RetryResult.raised e2, 2, w) := by
  constructor
  · simp [rate_limit_retry, tenacityRetry, retryLoop, h1, h2, h3,
      retryIfRateLimitExc, hr1, hr2, settleOutcome]
  · simp [rate_limit_retry, tenacityRetry, retryLoop, h1, h2,
      retryIfRateLimitExc, hr1, hr2, exhaustOutcome]

/-- An operation that is rate-limited on its first two invocations and
then answers. -/
def rlOp : Nat → Outcome Nat := fun n =>
  if n ≤ 2 then Outcome.exn (ProviderErr.rateLimit (str "429")) else Outcome.ok 7

/-- Witness for C2, on `rlOp` with a 5-second wait. -/
theorem rate_limit_retry_succeeds_third_witness :
    rate_limit_retry 3 5 rlOp = (RetryResult.value 7, 3, 5 + 5) ∧
    rate_limit_retry 2 5 rlOp =
      (RetryResult.raised (ProviderErr.rateLimit (str "429")), 2, 5) :=
  rate_limit_retry_succeeds_third rlOp
    (ProviderErr.rateLimit (str "429")) (ProviderErr.rateLimit (str "429")) 7 5
    (by decide) rfl (by decide) rfl (by decide)

/-- Claim C3: an operation whose first invocation raises any provider
error that is not a `ProviderRateLimitError` (`ProviderAuthError` or a
plain `ProviderError`), wrapped by `rate_limit_retry` with any attempt
budget and wait, is invoked exactly once and the error propagates
immediately, with no sleeping. -/
theorem rate_limit_retry_auth_immediate {α : Type} (op : Nat → Outcome α)
    (e : ProviderErr) (n w : Nat)
    (h1 : op 1 = Outcome.exn e) (hr : isRateLimitError e = false) :
    rate_limit_retry n w op = (RetryResult.raised e, 1, 0) := by
  have hcond : retryIfRateLimitExc (op 1) = false := by
    rw [h1]
    simpa [retryIfRateLimitExc] using hr
  rw [rate_limit_retry, tenacityRetry,
    retryLoop_no_retry retryIfRateLimitExc w op (n - 1) 1 0 hcond, h1]
  rfl

/-- An operation that always raises `ProviderAuthError`. -/
def authOp : Nat → Outcome Str :=
  fun _ => Outcome.exn (ProviderErr.auth (str "401"))

/-- Witness for C3: an operation that always raises `ProviderAuthError`,
wrapped with the default budget of 3 attempts and 1-second wait. -/
theorem rate_limit_retry_auth_immediate_witness :
    rate_limit_retry 3 1 authOp =
      (RetryResult.raised (ProviderErr.auth (str "401")), 1, 0) :=
  rate_limit_retry_auth_immediate authOp
    (ProviderErr.auth (str "401")) 3 1 rfl rfl

/-- Claim C7: `call_with_retry` wraps `generate` — invoked with the same
`messages` and `params` on every attempt — in the rate-limit strategy with
exactly 3 attempts and a fixed 1-second wait; when all three attempts raise
rate-limit errors, the third (final) error is re-raised unmodified to the
caller after exactly 3 invocations and 2 total seconds of waiting. -/
theorem call_with_retry_reraises_final (c : ClientBehavior)
    (messages : Messages) (params : GenerateParameters)
    (e1 e2 e3 : ProviderErr)
    (h1 : c.generate messages params 1 = Outcome.exn e1)
    (hr1 : isRateLimitError e1 = true)
    (h2 : c.generate messages params 2 = Outcome.exn e2)
    (hr2 : isRateLimitError e2 = true)
    (h3 : c.generate messages params 3 = Outcome.exn e3)
    (hr3 : isRateLimitError e3 = true) :
    call_with_retry c messages params = (RetryResult.raised e3, 3, 2) := by
  simp [call_with_retry, rate_limit_retry, tenacityRetry, retryLoop,
    h1, h2, h3, retryIfRateLimitExc, hr1, hr2, hr3, exhaustOutcome]

/-- A client whose `generate` always raises a rate-limit error. -/
def alwaysRateLimited : ClientBehavior :=
  { generate := fun _ _ _ => Outcome.exn (ProviderErr.rateLimit (str "429")) }

/-- An empty message sequence. -/
def emptyMessages : Messages := { messages := [] }

/-- The default generation parameters of `data_class.py`. -/
def defaultParams : GenerateParameters :=
  { temperature := some (7 / 10), top_p := some 1, max_tokens := none,
    extra := [] }

/-- Witness for C7, on the always-rate-limited client. -/
theorem call_with_retry_reraises_final_witness :
    call_with_retry alwaysRateLimited emptyMessages defaultParams =
      (RetryResult.raised (ProviderErr.rateLimit (str "429")), 3, 2) :=
  call_with_retry_reraises_final alwaysRateLimited emptyMessages
    defaultParams (ProviderErr.rateLimit (str "429"))
    (ProviderErr.rateLimit (str "429")) (ProviderErr.rateLimit (str "429"))
    rfl rfl rfl rfl rfl rfl

/-- Claim C8: an operation returning `"retry-me"` on attempts 1 and 2 and
`"ok"` on attempt 3, wrapped by `llm_retry_decorator` with the predicate
`value == "retry-me"` and `max_attempts=5`, returns `"ok"` after exactly 3
invocations; and in general any normal return whose value fails the
predicate is accepted on the first invocation, with no retry and no
sleeping. -/
theorem llm_retry_decorator_predicate (op : Nat → Outcome Str) (w : Nat)
    (h1 : op 1 = Outcome.ok (str "retry-me"))
    (h2 : op 2 = Outcome.ok (str "retry-me"))
    (h3 : op 3 = Outcome.ok (str "ok")) :
    llm_retry_decorator (fun v => v == str "retry-me") 5 w op =
      (RetryResult.value (str "ok"), 3, w + w) ∧
    ∀ (pred : Str → Bool) (op2 : Nat → Outcome Str) (v : Str) (n : Nat),
      pred v = false → op2 1 = Outcome.ok v →
      llm_retry_decorator pred n w op2 = (RetryResult.value v, 1, 0) := by
  have hrm : (str "retry-me" == str "retry-me") = true := by decide
  have hok : (str "ok" == str "retry-me") = false := by decide
  constructor
  · simp [llm_retry_decorator, tenacityRetry, retryLoop, h1, h2, h3,
      retryIfResult, hrm, hok, settleOutcome]
  · intro pred op2 v n hpred hop
    have hcond : retryIfResult pred (op2 1) = false := by
      rw [hop]
      simpa [retryIfResult] using hpred
    rw [llm_retry_decorator, tenacityRetry,
      retryLoop_no_retry (retryIfResult pred) w op2 (n - 1) 1 0 hcond, hop]
    rfl

/-- An operation answering `"retry-me"` twice and then `"ok"`. -/
def predOp : Nat → Outcome Str := fun n =>
  if n ≤ 2 then Outcome.ok (str "retry-me") else Outcome.ok (str "ok")

/-- Witness for C8, on `predOp` with a 9-second wait, plus the immediate
acceptance of a value failing the predicate. -/
theorem llm_retry_decorator_predicate_witness :
    llm_retry_decorator (fun v => v == str "retry-me") 5 9 predOp =
      (RetryResult.value (str "ok"), 3, 9 + 9) ∧
    llm_retry_decorator (fun v => v == str "retry-me") 5 9
        (fun _ => Outcome.ok (str "fine")) =
      (RetryResult.value (str "fine"), 1, 0) := by
  have h := llm_retry_decorator_predicate predOp 9
    (by decide) (by decide) (by decide)
  exact ⟨h.1, h.2 (fun v => v == str "retry-me")
    (fun _ => Outcome.ok (str "fine")) (str "fine") 5 (by decide) rfl⟩

/-! ### Claim about parameter validation -/

/-- The boolean field validation, characterised: each supplied value must
lie in its pydantic bounds, and an omitted (`None`) field always passes. -/
theorem validGenerateParameters_iff (t p : Option ℚ) (m : Option ℤ) :
    validGenerateParameters t p m = true ↔
      (∀ x, t = some x → 0 ≤ x ∧ x ≤ 2) ∧
      (∀ x, p = some x → 0 ≤ x ∧ x ≤ 1) ∧
      (∀ x, m = some x → 256 < x ∧ x ≤ 16384) := by
  unfold validGenerateParameters
  cases t <;> cases p <;> cases m <;> simp [and_assoc]

/-- Claim C9: constructing a `GenerateParameters` record succeeds exactly
when each supplied field lies in its bounds — `temperature` in the closed
interval `[0, 2]`, `top_p` in `[0, 1]`, `max_tokens` in the
lower-exclusive, upper-inclusive interval `(256, 16384]` — and, when it
succeeds, every field (the unrecognized extras included) is stored exactly
as supplied, unvalidated. -/
theorem mkGenerateParameters_spec (t p : Option ℚ) (m : Option ℤ)
    (extra : List (Str × Str)) :
    ((mkGenerateParameters t p m extra).isSome = true ↔
      (∀ x, t = some x → 0 ≤ x ∧ x ≤ 2) ∧
      (∀ x, p = some x → 0 ≤ x ∧ x ≤ 1) ∧
      (∀ x, m = some x → 256 < x ∧ x ≤ 16384)) ∧
    ∀ g, mkGenerateParameters t p m extra = some g →
      g = { temperature := t, top_p := p, max_tokens := m, extra := extra } := by
  constructor
  · rw [← validGenerateParameters_iff]
    unfold mkGenerateParameters
    by_cases hv : validGenerateParameters t p m = true <;> simp [hv]
  · intro g hg
    unfold mkGenerateParameters at hg
    by_cases hv : validGenerateParameters t p m = true
    · rw [if_pos hv] at hg
      exact (Option.some.inj hg).symm
    · rw [if_neg hv] at hg
      cases hg

/-- Witness for C9: in-bounds values with an unrecognized extra field are
accepted. -/
theorem mkGenerateParameters_spec_witness :
    (mkGenerateParameters (some 1) (some (1 / 2)) (some 1000)
        [(str "seed", str "42")]).isSome = true :=
  (mkGenerateParameters_spec (some 1) (some (1 / 2)) (some 1000)
      [(str "seed", str "42")]).1.mpr
    ⟨fun x hx => by
        obtain rfl := Option.some.inj hx
        norm_num,
      fun x hx => by
        obtain rfl := Option.some.inj hx
        norm_num,
      fun x hx => by
        obtain rfl := Option.some.inj hx
        norm_num⟩
